import Mathlib

/-!
Shallow embedding of `upscayl-service.py`, a small Flask service with two
upload endpoints (`POST /process`, `POST /upscale`), an external upscaling
binary and an optional background-removal library.

Python effects are modelled by `PyM`, a state-and-exception monad over the
filesystem (a set of paths, represented as `String → Bool`).  Exceptions
raised by the interpreter or libraries are `PyErr`; `try/except/finally`
blocks become `PyM.tryCatch` / `PyM.tryCatchFinally`.  The behaviour of the
external world (the subprocess, PIL, rembg, `send_file`) is supplied by
environment records, so theorems quantify over every outcome the Python
code distinguishes.
-/

namespace UpscaylService

/-- A Python exception value.  `run_upscayl` distinguishes
`subprocess.TimeoutExpired` from other exceptions (both handlers return
`False`), so we keep the distinction. -/
inductive PyErr where
  | timeoutExpired
  | exception (msg : String)
deriving DecidableEq, Repr

/-- The filesystem: which paths currently exist. -/
def FS : Type := String → Bool

/-- Python computation: given the filesystem, either return a value or an
uncaught exception, together with the updated filesystem. -/
def PyM (α : Type) : Type := FS → Except PyErr α × FS

namespace PyM

def pure {α : Type} (a : α) : PyM α := fun fs => (Except.ok a, fs)

def bind {α β : Type} (m : PyM α) (f : α → PyM β) : PyM β := fun fs =>
  match m fs with
  | (Except.ok a, fs') => f a fs'
  | (Except.error e, fs') => (Except.error e, fs')

/-- `raise e` -/
def raise {α : Type} (e : PyErr) : PyM α := fun fs => (Except.error e, fs)

/-- Run a pure fallible step (a library call whose outcome the environment
predetermines) inside `PyM`. -/
def liftExcept {α : Type} (x : Except PyErr α) : PyM α := fun fs => (x, fs)

/-- `try: m except: h` — the handler receives the exception. -/
def tryCatch {α : Type} (m : PyM α) (h : PyErr → PyM α) : PyM α := fun fs =>
  match m fs with
  | (Except.error e, fs') => h e fs'
  | ok => ok

/-- `try: m except: h finally: fin`.  The finaliser always runs; its result
is discarded (the finalisers in this service never raise). -/
def tryCatchFinally {α : Type} (m : PyM α) (h : PyErr → PyM α) (fin : PyM Unit) :
    PyM α := fun fs =>
  let step :=
    match m fs with
    | (Except.error e, fs') => h e fs'
    | ok => ok
  let fin2 := fin step.2
  (step.1, fin2.2)

/-- `os.path.exists(p)` -/
def pathExists (p : String) : PyM Bool := fun fs => (Except.ok (fs p), fs)

/-- A step that creates the file at `p` (e.g. a successful `save`). -/
def createFile (p : String) : PyM Unit := fun fs =>
  (Except.ok (), fun q => if q = p then true else fs q)

/-- `os.remove(p)`; modelled as succeeding (cleanup errors are swallowed by
the code wherever removal is attempted). -/
def removeFile (p : String) : PyM Unit := fun fs =>
  (Except.ok (), fun q => if q = p then false else fs q)

/-- Raise unless `ok` holds: models a library call that either succeeds
silently or raises. -/
def checkRaise (ok : Bool) (msg : String) : PyM Unit :=
  if ok then pure () else raise (PyErr.exception msg)

end PyM

/-- `UPSCAYL_PATH = "/opt/upscayl/upscayl-bin"` -/
def UPSCAYL_PATH : String := "/opt/upscayl/upscayl-bin"

/-- `TEMP_DIR = "/tmp/upscayl"` -/
def TEMP_DIR : String := "/tmp/upscayl"

/-- `os.path.join(TEMP_DIR, f"input_{unique_id}.png")` -/
def inputPath (uid : String) : String := TEMP_DIR ++ "/input_" ++ uid ++ ".png"

/-- `os.path.join(TEMP_DIR, f"output_{unique_id}.png")` -/
def outputPath (uid : String) : String := TEMP_DIR ++ "/output_" ++ uid ++ ".png"

/-- The completed-process value returned by `subprocess.run`. -/
structure SubprocessResult where
  returncode : Int
  stdout : String
  stderr : String
deriving DecidableEq, Repr

/-- The arguments `run_upscayl` hands to `subprocess.run`. -/
structure UpscaylInvocation where
  cmd : List String
  timeoutSecs : Nat
  cwd : String
deriving DecidableEq, Repr

/-- Environment for one invocation of the external upscayl binary:
what `subprocess.run` yields (a completed process, `TimeoutExpired`, or
another exception) and whether the binary wrote the output file. -/
structure UpscaylEnv where
  run : UpscaylInvocation → Except PyErr SubprocessResult
  createsOutput : Bool

/-- `subprocess.run(cmd, ..., timeout=600, cwd="/opt/upscayl")`: the binary
may create the output file as a side effect, then the call completes or
raises as the environment dictates. -/
def subprocessRun (env : UpscaylEnv) (inv : UpscaylInvocation) (outp : String) :
    PyM SubprocessResult := fun fs =>
  (env.run inv, fun q => if q = outp then (env.createsOutput || fs q) else fs q)

/-- `run_upscayl(input_path, output_path, scale)` (source lines 84-119):
build the command, run it with a 600 s timeout, return `False` on nonzero
exit or missing output file, `True` otherwise; both `except` clauses
(`subprocess.TimeoutExpired` and `Exception`) return `False`. -/
def run_upscayl (inp outp : String) (scale : Int) (env : UpscaylEnv) : PyM Bool :=
  PyM.tryCatch
    (PyM.bind
      (subprocessRun env
        { cmd := [UPSCAYL_PATH, "-i", inp, "-o", outp, "-s", toString scale,
                  "-m", "realesrgan-x4plus", "-f", "png"],
          timeoutSecs := 600, cwd := "/opt/upscayl" }
        outp)
      (fun result =>
        if result.returncode ≠ 0 then PyM.pure false
        else
          PyM.bind (PyM.pathExists outp) (fun ex =>
            if ex = false then PyM.pure false else PyM.pure true)))
    (fun _ => PyM.pure false)

/-- A PIL image: its mode string (`"RGBA"`, `"RGB"`, ...) and abstract
pixel content. -/
structure PILImage where
  mode : String
  content : Nat
deriving DecidableEq, Repr

/-- `img.convert(m)` — PIL mode conversion (content kept abstract). -/
def PILImage.convert (img : PILImage) (m : String) : PILImage :=
  { img with mode := m }

/-- Source lines 133-134: `if img.mode != 'RGBA': img = img.convert('RGBA')` —
normalize the image to an alpha-capable pixel format. -/
def toRGBA (img : PILImage) : PILImage :=
  if img.mode ≠ "RGBA" then img.convert "RGBA" else img

/-- Environment for `remove_background`: whether `rembg` imported
(`remove is not None`), and the outcomes of `Image.open`, `remove` and
`save`. -/
structure RembgEnv where
  available : Bool
  openImage : String → Except PyErr PILImage
  removeBg : PILImage → Except PyErr PILImage
  save : PILImage → String → Except PyErr Unit

/-- `remove_background(input_path, output_path)` (source lines 121-146):
`False` if `remove is None`; otherwise open the image, convert to RGBA if
not already, call `remove`, save as PNG, return `True`; any exception is
caught and yields `False`. -/
def remove_background (inp outp : String) (env : RembgEnv) : PyM Bool :=
  if env.available = false then PyM.pure false
  else
    PyM.tryCatch
      (PyM.bind (PyM.liftExcept (env.openImage inp)) (fun img =>
        PyM.bind (PyM.liftExcept (env.removeBg (toRGBA img))) (fun outImg =>
          PyM.bind (PyM.liftExcept (env.save outImg "PNG")) (fun _ =>
            PyM.bind (PyM.createFile outp) (fun _ =>
              PyM.pure true)))))
      (fun _ => PyM.pure false)

/-- The whitespace characters Python `int(...)` strips from a string. -/
def isPySpace (c : Char) : Bool :=
  c = ' ' || c = '\t' || c = '\n' || c = '\r' || c = '\x0b' || c = '\x0c'

/-- Strip leading and trailing whitespace from a character list. -/
def stripChars (l : List Char) : List Char :=
  ((l.dropWhile isPySpace).reverse.dropWhile isPySpace).reverse

/-- A Python `int(...)` call on a string: strip whitespace, optional sign,
then decimal digits; anything else raises `ValueError`. -/
def pyInt (s : String) : Except PyErr Int :=
  let core : Int × List Char :=
    match stripChars s.data with
    | '+' :: rest => (1, rest)
    | '-' :: rest => (-1, rest)
    | l => (1, l)
  if core.2 ≠ [] ∧ core.2.all Char.isDigit then
    Except.ok (core.1 * (core.2.foldl (fun n c => 10 * n + (c.toNat - 48)) 0 : Nat))
  else
    Except.error (PyErr.exception ("invalid literal for int with base 10: " ++ s))

/-- `int(request.form.get('scale', 4))`: when the field is absent the
default is already the integer `4`, so only a present field can raise. -/
def getScale (form : String → Option String) : Except PyErr Int :=
  match form "scale" with
  | none => Except.ok 4
  | some s => pyInt s

/-- An uploaded file in `request.files`: its client-supplied filename and
abstract stream content. -/
structure UploadedFile where
  filename : String
  content : Nat
deriving DecidableEq, Repr

/-- An HTTP request as the handlers see it: the multipart files and the
form fields. -/
structure Request where
  files : String → Option UploadedFile
  form : String → Option String

/-- `request.form.get(k, default)` -/
def formGet (req : Request) (k default : String) : String :=
  (req.form k).getD default

/-- A Flask response: a JSON error with a status code, or a streamed file
(status 200) with mimetype and download name. -/
inductive Response where
  | json (status : Nat) (error : String)
  | file (path : String) (mimetype : String) (downloadName : String)
deriving DecidableEq, Repr

/-- The HTTP status code of a response (`send_file` responses are 200). -/
def Response.statusCode : Response → Nat
  | Response.json s _ => s
  | Response.file _ _ _ => 200

/-- Per-request environment for a handler: the generated `uuid4`, whether
`Image.open(file.stream)` and `image.save(input_path, 'PNG')` succeed, the
behaviour of the external operations, and whether `send_file` succeeds. -/
structure HandlerEnv where
  uniqueId : String
  openOk : Bool
  saveOk : Bool
  upscayl : UpscaylEnv
  rembg : RembgEnv
  sendOk : Bool

/-- `image = Image.open(file.stream); image.save(input_path, 'PNG')`
(source lines 168-169 and 227-228): either step may raise; on success the
input temp file exists. -/
def saveUpload (env : HandlerEnv) (inp : String) : PyM Unit :=
  PyM.bind (PyM.checkRaise env.openOk "cannot identify image file") (fun _ =>
    PyM.bind (PyM.checkRaise env.saveOk "could not save image") (fun _ =>
      PyM.createFile inp))

/-- `action.replace("_", " ")` (the pattern is a single character, so the
replacement is a character map). -/
def underscoreToSpace (s : String) : String :=
  String.mk (s.data.map (fun c => if c = '_' then ' ' else c))

/-- The common tail of both handlers after the operation ran (source lines
182-192 and 233-242): delete the input file if it exists, return 500 naming
the action when the operation failed or the output file is missing,
otherwise stream the output file.  The legacy route inlines this with
`action` fixed to `"upscale"`: its literal message
`'Failed to upscale image'` and download prefix `"upscaled_"` coincide with
this code at that action. -/
def finishAndSend (file : UploadedFile) (env : HandlerEnv)
    (action inp outp : String) (success : Bool) : PyM Response :=
  PyM.bind (PyM.pathExists inp) (fun inEx =>
    PyM.bind (if inEx then PyM.removeFile inp else PyM.pure ()) (fun _ =>
      PyM.bind (PyM.pathExists outp) (fun outEx =>
        if success = false ∨ outEx = false then
          PyM.pure (Response.json 500 ("Failed to " ++ underscoreToSpace action ++ " image"))
        else
          let action_name := if action = "upscale" then "upscaled" else "nobg"
          PyM.bind (PyM.checkRaise env.sendOk "error while sending file") (fun _ =>
            PyM.pure (Response.file outp "image/png" (action_name ++ "_" ++ file.filename))))))

/-- `finally:` block of both handlers (source lines 198-204 and 248-254):
remove the output file if it exists, swallowing removal errors.  (When the
handler returned before `output_path` was assigned, the block is a no-op
because nothing was created; the guard `'output_path' in locals()` is
therefore absorbed into the early returns below.) -/
def cleanupOutput (outp : String) : PyM Unit :=
  PyM.bind (PyM.pathExists outp) (fun ex =>
    if ex then PyM.removeFile outp else PyM.pure ())

/-- The dispatch `if action == 'upscale' ... elif action == 'remove_bg' ...
else return 400` of `/process` (source lines 171-192). -/
def process_dispatch (req : Request) (env : HandlerEnv) (file : UploadedFile)
    (action inp outp : String) : PyM Response :=
  if action = "upscale" then
    PyM.bind (PyM.liftExcept (getScale req.form)) (fun scale =>
      PyM.bind (run_upscayl inp outp scale env.upscayl) (fun success =>
        finishAndSend file env action inp outp success))
  else if action = "remove_bg" then
    PyM.bind (remove_background inp outp env.rembg) (fun success =>
      finishAndSend file env action inp outp success)
  else
    PyM.pure (Response.json 400 "Invalid action specified")

/-- `process_image` — handler of `POST /process` (source lines 148-204).
Validation of the upload happens before any file is created, so hoisting it
out of the `try` preserves behaviour (those paths cannot raise and the
`finally` is a no-op on them). -/
def process_image (req : Request) (env : HandlerEnv) : PyM Response :=
  match req.files "image" with
  | none => PyM.pure (Response.json 400 "No image provided")
  | some file =>
    if file.filename = "" then PyM.pure (Response.json 400 "No file selected")
    else
      PyM.tryCatchFinally
        (PyM.bind (saveUpload env (inputPath env.uniqueId)) (fun _ =>
          process_dispatch req env file (formGet req "action" "upscale")
            (inputPath env.uniqueId) (outputPath env.uniqueId)))
        (fun _ => PyM.pure (Response.json 500 "Internal server error"))
        (cleanupOutput (outputPath env.uniqueId))

/-- `upscale_image` — handler of the legacy `POST /upscale` (source lines
206-254): field `file`, no `action` field, scale parsed before the temp
paths are generated, then the same save / run / cleanup / send sequence
with the operation fixed to upscaling. -/
def upscale_image (req : Request) (env : HandlerEnv) : PyM Response :=
  match req.files "file" with
  | none => PyM.pure (Response.json 400 "No file provided")
  | some file =>
    if file.filename = "" then PyM.pure (Response.json 400 "No file selected")
    else
      PyM.tryCatchFinally
        (PyM.bind (PyM.liftExcept (getScale req.form)) (fun scale =>
          PyM.bind (saveUpload env (inputPath env.uniqueId)) (fun _ =>
            PyM.bind (run_upscayl (inputPath env.uniqueId) (outputPath env.uniqueId)
                scale env.upscayl) (fun success =>
              finishAndSend file env "upscale" (inputPath env.uniqueId)
                (outputPath env.uniqueId) success))))
        (fun _ => PyM.pure (Response.json 500 "Internal server error"))
        (cleanupOutput (outputPath env.uniqueId))

/-! ### Concrete fixtures used by witnesses and counterexamples -/

/-- An empty filesystem. -/
def emptyFS : FS := fun _ => false

/-- A typical upload. -/
def sampleFile : UploadedFile := { filename := "photo.png", content := 1 }

/-- An upload with an empty client filename. -/
def emptyNameFile : UploadedFile := { filename := "", content := 2 }

/-- Upscayl binary behaviour: exits 0 and writes the output file. -/
def upscaylOk : UpscaylEnv :=
  { run := fun _ => Except.ok { returncode := 0, stdout := "", stderr := "" },
    createsOutput := true }

/-- Upscayl binary behaviour: exits 1 and writes nothing. -/
def upscaylBad : UpscaylEnv :=
  { run := fun _ => Except.ok { returncode := 1, stdout := "", stderr := "failed" },
    createsOutput := false }

/-- rembg available and every library call succeeding. -/
def rembgOk : RembgEnv :=
  { available := true,
    openImage := fun _ => Except.ok { mode := "RGB", content := 7 },
    removeBg := fun i => Except.ok { mode := i.mode, content := i.content + 1 },
    save := fun _ _ => Except.ok () }

/-- rembg failed to import (`remove is None`). -/
def rembgOff : RembgEnv := { rembgOk with available := false }

/-- A request environment where everything succeeds. -/
def envOk : HandlerEnv :=
  { uniqueId := "u", openOk := true, saveOk := true,
    upscayl := upscaylOk, rembg := rembgOk, sendOk := true }

/-- Environment where both operations fail (binary exits nonzero, rembg
unavailable). -/
def envBad : HandlerEnv := { envOk with upscayl := upscaylBad, rembg := rembgOff }

/-- Environment where PIL cannot decode the uploaded bytes. -/
def envNoDecode : HandlerEnv := { envOk with openOk := false }

/-- Multipart files holding the upload under `image`. -/
def filesImage : String → Option UploadedFile :=
  fun k => if k = "image" then some sampleFile else none

/-- Multipart files holding the upload under `file`. -/
def filesFile : String → Option UploadedFile :=
  fun k => if k = "file" then some sampleFile else none

/-- Multipart files holding the upload under both names. -/
def filesBoth : String → Option UploadedFile :=
  fun k => if k = "image" then some sampleFile
           else if k = "file" then some sampleFile else none

/-- `POST /process` with `action=invalid`. -/
def reqBadAction : Request :=
  { files := filesImage, form := fun k => if k = "action" then some "invalid" else none }

/-- `POST /process` with `scale=abc` (action defaults to upscale). -/
def reqBadScaleProcess : Request :=
  { files := filesImage, form := fun k => if k = "scale" then some "abc" else none }

/-- `POST /upscale` with `scale=abc`. -/
def reqBadScaleUpscale : Request :=
  { files := filesFile, form := fun k => if k = "scale" then some "abc" else none }

/-- `POST /upscale` with no form fields at all (no action, no scale). -/
def reqNoForm : Request := { files := filesFile, form := fun _ => none }

/-- A request carrying the upload under both field names, `scale=4`. -/
def reqBothScale4 : Request :=
  { files := filesBoth, form := fun k => if k = "scale" then some "4" else none }

/-- A request carrying the upload under both field names, `scale=abc`. -/
def reqBothBadScale : Request :=
  { files := filesBoth, form := fun k => if k = "scale" then some "abc" else none }

/-- `POST /process` with `action=remove_bg` and `scale=3`. -/
def reqRemoveBg3 : Request :=
  { files := filesImage,
    form := fun k => if k = "action" then some "remove_bg"
                     else if k = "scale" then some "3" else none }

/-- `POST /process` with `action=remove_bg` and `scale=7` — identical to
`reqRemoveBg3` except for the scale field. -/
def reqRemoveBg7 : Request :=
  { files := filesImage,
    form := fun k => if k = "action" then some "remove_bg"
                     else if k = "scale" then some "7" else none }

/-- A request with no multipart file at all. -/
def reqNoUpload : Request := { files := fun _ => none, form := fun _ => none }

/-- `POST /process` whose upload has an empty filename. -/
def reqEmptyNameProcess : Request :=
  { files := fun k => if k = "image" then some emptyNameFile else none,
    form := fun _ => none }

/-- `POST /upscale` whose upload has an empty filename. -/
def reqEmptyNameUpscale : Request :=
  { files := fun k => if k = "file" then some emptyNameFile else none,
    form := fun _ => none }

/-! ### Helper lemmas about the monadic combinators -/

theorem tryCatchFinally_fst {α : Type} (m : PyM α) (h : PyErr → PyM α)
    (fin : PyM Unit) (fs : FS) :
    (PyM.tryCatchFinally m h fin fs).1 = (PyM.tryCatch m h fs).1 := rfl

theorem tryCatchFinally_snd {α : Type} (m : PyM α) (h : PyErr → PyM α)
    (fin : PyM Unit) (fs : FS) :
    (PyM.tryCatchFinally m h fin fs).2 = (fin (PyM.tryCatch m h fs).2).2 := rfl

theorem tryCatch_pure_snd {α : Type} (m : PyM α) (r : α) (fs : FS) :
    (PyM.tryCatch m (fun _ => PyM.pure r) fs).2 = (m fs).2 := by
  unfold PyM.tryCatch PyM.pure
  rcases hm : m fs with ⟨x, fs2⟩
  cases x <;> simp

theorem cleanupOutput_self (outp : String) (fs : FS) :
    (cleanupOutput outp fs).2 outp = false := by
  unfold cleanupOutput PyM.bind PyM.pathExists PyM.removeFile PyM.pure
  by_cases h : fs outp = true <;> simp [h]

theorem cleanupOutput_other (outp q : String) (fs : FS) (hq : q ≠ outp) :
    (cleanupOutput outp fs).2 q = fs q := by
  unfold cleanupOutput PyM.bind PyM.pathExists PyM.removeFile PyM.pure
  by_cases h : fs outp = true <;> simp [h, hq]

theorem saveUpload_ok (env : HandlerEnv) (inp : String) (fs : FS)
    (h1 : env.openOk = true) (h2 : env.saveOk = true) :
    saveUpload env inp fs = (Except.ok (), fun q => if q = inp then true else fs q) := by
  unfold saveUpload PyM.bind PyM.checkRaise PyM.pure PyM.createFile
  rw [h1, h2]
  rfl

theorem saveUpload_bad (env : HandlerEnv) (inp : String) (fs : FS)
    (h : env.openOk = false ∨ env.saveOk = false) :
    ∃ e : PyErr, saveUpload env inp fs = (Except.error e, fs) := by
  unfold saveUpload PyM.bind PyM.checkRaise PyM.pure PyM.createFile PyM.raise
  rcases h with h | h
  · rw [h]; exact ⟨PyErr.exception "cannot identify image file", rfl⟩
  · rw [h]
    cases ho : env.openOk <;>
      exact ⟨_, rfl⟩

theorem run_upscayl_spec (inp outp : String) (scale : Int) (env : UpscaylEnv) (fs : FS) :
    ∃ (b : Bool) (fs2 : FS), run_upscayl inp outp scale env fs = (Except.ok b, fs2) ∧
      (∀ q, q ≠ outp → fs2 q = fs q) ∧
      fs2 outp = (env.createsOutput || fs outp) ∧
      (b = true ↔ ∃ r : SubprocessResult,
          env.run { cmd := [UPSCAYL_PATH, "-i", inp, "-o", outp, "-s", toString scale,
                            "-m", "realesrgan-x4plus", "-f", "png"],
                    timeoutSecs := 600, cwd := "/opt/upscayl" } = Except.ok r ∧
          r.returncode = 0 ∧ (env.createsOutput || fs outp) = true) := by
  refine ⟨(match env.run { cmd := [UPSCAYL_PATH, "-i", inp, "-o", outp, "-s", toString scale,
                                   "-m", "realesrgan-x4plus", "-f", "png"],
                           timeoutSecs := 600, cwd := "/opt/upscayl" } with
           | Except.ok r => decide (r.returncode = 0) && (env.createsOutput || fs outp)
           | Except.error _ => false),
          fun q => if q = outp then (env.createsOutput || fs q) else fs q, ?_, ?_, ?_, ?_⟩
  · unfold run_upscayl subprocessRun PyM.tryCatch PyM.bind PyM.pure PyM.pathExists
    rcases hr : env.run { cmd := [UPSCAYL_PATH, "-i", inp, "-o", outp, "-s", toString scale,
                                  "-m", "realesrgan-x4plus", "-f", "png"],
                          timeoutSecs := 600, cwd := "/opt/upscayl" } with e | r
    · simp
    · by_cases hrc : r.returncode = 0 <;> by_cases hex : (env.createsOutput || fs outp) = true <;>
        simp [hrc, hex]
  · intro q hq; simp [hq]
  · simp
  · rcases hr : env.run { cmd := [UPSCAYL_PATH, "-i", inp, "-o", outp, "-s", toString scale,
                                  "-m", "realesrgan-x4plus", "-f", "png"],
                          timeoutSecs := 600, cwd := "/opt/upscayl" } with e | r
    · simp
    · by_cases hrc : r.returncode = 0 <;> by_cases hex : (env.createsOutput || fs outp) = true <;>
        simp [hr, hrc, hex]

theorem remove_background_spec (inp outp : String) (env : RembgEnv) (fs : FS) :
    ∃ (b : Bool) (fs2 : FS), remove_background inp outp env fs = (Except.ok b, fs2) ∧
      (∀ q, q ≠ outp → fs2 q = fs q) ∧
      (b = true ↔ env.available = true ∧ ∃ img outImg : PILImage,
          env.openImage inp = Except.ok img ∧
          env.removeBg (toRGBA img) = Except.ok outImg ∧
          env.save outImg "PNG" = Except.ok ()) := by
  unfold remove_background PyM.tryCatch PyM.bind PyM.liftExcept PyM.pure PyM.createFile
  cases hav : env.available
  · exact ⟨false, fs, by simp, fun q _ => rfl, by simp [hav]⟩
  · simp only [hav]
    rcases ho : env.openImage inp with e | img
    · refine ⟨false, fs, by simp [ho], fun q _ => rfl, ?_⟩
      simp [ho]
    · rcases hrb : env.removeBg (toRGBA img) with e | outImg
      · refine ⟨false, fs, by simp [ho, hrb], fun q _ => rfl, ?_⟩
        constructor
        · intro h; exact absurd h (by simp)
        · rintro ⟨-, img2, o2, ho2, hrb2, -⟩
          cases ho2
          rw [hrb] at hrb2
          cases hrb2
      · rcases hsv : env.save outImg "PNG" with e | u
        · refine ⟨false, fs, by simp [ho, hrb, hsv], fun q _ => rfl, ?_⟩
          constructor
          · intro h; exact absurd h (by simp)
          · rintro ⟨-, img2, o2, ho2, hrb2, hsv2⟩
            cases ho2
            rw [hrb] at hrb2
            cases hrb2
            rw [hsv] at hsv2
            cases hsv2
        · refine ⟨true, fun q => if q = outp then true else fs q,
            by simp [ho, hrb, hsv], ?_, ?_⟩
          · intro q hq; simp [hq]
          · exact ⟨fun _ => ⟨trivial, img, outImg, rfl, hrb, by cases u; exact hsv⟩,
              fun _ => rfl⟩

theorem finishAndSend_snd_self (file : UploadedFile) (env : HandlerEnv)
    (action inp outp : String) (success : Bool) (fs : FS) :
    (finishAndSend file env action inp outp success fs).2 inp = false := by
  unfold finishAndSend PyM.bind PyM.pathExists PyM.removeFile PyM.pure PyM.checkRaise
    PyM.raise
  by_cases hin : fs inp = true <;> cases hs : env.sendOk <;> split_ifs <;>
    simp_all [PyM.pure] <;> split_ifs <;> simp_all [PyM.pure]

theorem finishAndSend_snd_other (file : UploadedFile) (env : HandlerEnv)
    (action inp outp : String) (success : Bool) (fs : FS) (q : String) (hq : q ≠ inp) :
    (finishAndSend file env action inp outp success fs).2 q = fs q := by
  unfold finishAndSend PyM.bind PyM.pathExists PyM.removeFile PyM.pure PyM.checkRaise
    PyM.raise
  by_cases hin : fs inp = true <;> cases hs : env.sendOk <;> split_ifs <;>
    simp_all [PyM.pure] <;> split_ifs <;> simp_all [PyM.pure]

theorem finishAndSend_fail_fst (file : UploadedFile) (env : HandlerEnv)
    (action inp outp : String) (fs : FS) :
    (finishAndSend file env action inp outp false fs).1 =
      Except.ok (Response.json 500 ("Failed to " ++ underscoreToSpace action ++ " image")) := by
  unfold finishAndSend PyM.bind PyM.pathExists PyM.removeFile PyM.pure
  by_cases hin : fs inp = true <;> simp [hin]

theorem process_dispatch_upscale (req : Request) (env : HandlerEnv) (file : UploadedFile)
    (inp outp : String) :
    process_dispatch req env file "upscale" inp outp =
      PyM.bind (PyM.liftExcept (getScale req.form)) (fun scale =>
        PyM.bind (run_upscayl inp outp scale env.upscayl) (fun success =>
          finishAndSend file env "upscale" inp outp success)) := rfl

theorem process_dispatch_remove_bg (req : Request) (env : HandlerEnv) (file : UploadedFile)
    (inp outp : String) :
    process_dispatch req env file "remove_bg" inp outp =
      PyM.bind (remove_background inp outp env.rembg) (fun success =>
        finishAndSend file env "remove_bg" inp outp success) := rfl

theorem process_dispatch_invalid (req : Request) (env : HandlerEnv) (file : UploadedFile)
    (action inp outp : String) (h1 : action ≠ "upscale") (h2 : action ≠ "remove_bg") :
    process_dispatch req env file action inp outp =
      PyM.pure (Response.json 400 "Invalid action specified") := by
  unfold process_dispatch
  rw [if_neg h1, if_neg h2]

theorem process_image_main (req : Request) (env : HandlerEnv) (file : UploadedFile)
    (hfile : req.files "image" = some file) (hname : file.filename ≠ "") :
    process_image req env =
      PyM.tryCatchFinally
        (PyM.bind (saveUpload env (inputPath env.uniqueId)) (fun _ =>
          process_dispatch req env file (formGet req "action" "upscale")
            (inputPath env.uniqueId) (outputPath env.uniqueId)))
        (fun _ => PyM.pure (Response.json 500 "Internal server error"))
        (cleanupOutput (outputPath env.uniqueId)) := by
  unfold process_image
  rw [hfile]
  simp only [if_neg hname]

theorem upscale_image_main (req : Request) (env : HandlerEnv) (file : UploadedFile)
    (hfile : req.files "file" = some file) (hname : file.filename ≠ "") :
    upscale_image req env =
      PyM.tryCatchFinally
        (PyM.bind (PyM.liftExcept (getScale req.form)) (fun scale =>
          PyM.bind (saveUpload env (inputPath env.uniqueId)) (fun _ =>
            PyM.bind (run_upscayl (inputPath env.uniqueId) (outputPath env.uniqueId)
                scale env.upscayl) (fun success =>
              finishAndSend file env "upscale" (inputPath env.uniqueId)
                (outputPath env.uniqueId) success))))
        (fun _ => PyM.pure (Response.json 500 "Internal server error"))
        (cleanupOutput (outputPath env.uniqueId)) := by
  unfold upscale_image
  rw [hfile]
  simp only [if_neg hname]

theorem finishAndSend_fail_pair (file : UploadedFile) (env : HandlerEnv)
    (action inp outp : String) (fs : FS) :
    ∃ fs2 : FS, finishAndSend file env action inp outp false fs =
      (Except.ok (Response.json 500 ("Failed to " ++ underscoreToSpace action ++ " image")),
       fs2) := by
  rcases hp : finishAndSend file env action inp outp false fs with ⟨r, fs2⟩
  have h1 := finishAndSend_fail_fst file env action inp outp fs
  rw [hp] at h1
  exact ⟨fs2, congrArg (fun x => (x, fs2)) h1⟩

theorem process_image_ext (req1 req2 : Request) (env : HandlerEnv)
    (hf : req1.files "image" = req2.files "image")
    (ha : formGet req1 "action" "upscale" = formGet req2 "action" "upscale")
    (hs : req1.form "scale" = req2.form "scale") :
    process_image req1 env = process_image req2 env := by
  unfold process_image
  rw [← hf]
  cases hcase : req1.files "image" with
  | none => rfl
  | some file =>
    by_cases hname : file.filename = ""
    · simp only [if_pos hname]
    · simp only [if_neg hname]
      rw [ha]
      unfold process_dispatch getScale
      rw [hs]

theorem upscale_image_ext (req1 req2 : Request) (env : HandlerEnv)
    (hf : req1.files "file" = req2.files "file")
    (hs : req1.form "scale" = req2.form "scale") :
    upscale_image req1 env = upscale_image req2 env := by
  unfold upscale_image
  rw [← hf]
  cases hcase : req1.files "file" with
  | none => rfl
  | some file =>
    by_cases hname : file.filename = ""
    · simp only [if_pos hname]
    · simp only [if_neg hname]
      unfold getScale
      rw [hs]

/-! ### Claim theorems -/

/-- C7: `run_upscayl` invokes the external binary with flags selecting the
input path, output path, the given integer scale, the fixed model
`realesrgan-x4plus` and PNG output format, under a 600-second timeout; it
returns `true` exactly when the process completed with exit code 0 and the
output file exists afterwards, and `false` otherwise (nonzero exit, timeout,
exception, or missing output file). -/
theorem C7_run_upscayl_contract (inp outp : String) (scale : Int)
    (env : UpscaylEnv) (fs : FS) :
    ∃ (b : Bool) (fs2 : FS), run_upscayl inp outp scale env fs = (Except.ok b, fs2) ∧
      (b = true ↔ ∃ r : SubprocessResult,
        env.run { cmd := [UPSCAYL_PATH, "-i", inp, "-o", outp, "-s", toString scale,
                          "-m", "realesrgan-x4plus", "-f", "png"],
                  timeoutSecs := 600, cwd := "/opt/upscayl" } = Except.ok r ∧
        r.returncode = 0 ∧ fs2 outp = true) := by
  obtain ⟨b, fs2, heq, -, houtp, hiff⟩ := run_upscayl_spec inp outp scale env fs
  refine ⟨b, fs2, heq, ?_⟩
  rw [houtp]
  exact hiff

/-- C8: `remove_background` normalizes the loaded image to the alpha-capable
RGBA mode when it is not already RGBA, and returns `true` exactly when rembg
is available, the image loads, the background-removal call succeeds on the
normalized image, and the result is saved in PNG format; it returns `false`
whenever the dependency is unavailable or any of these steps raises. -/
theorem C8_remove_background_contract (inp outp : String) (env : RembgEnv) (fs : FS) :
    (∀ img : PILImage, (toRGBA img).mode = "RGBA") ∧
    ∃ b : Bool, (remove_background inp outp env fs).1 = Except.ok b ∧
      (b = true ↔ env.available = true ∧ ∃ img outImg : PILImage,
        env.openImage inp = Except.ok img ∧
        env.removeBg (toRGBA img) = Except.ok outImg ∧
        env.save outImg "PNG" = Except.ok ()) := by
  constructor
  · intro img
    unfold toRGBA PILImage.convert
    by_cases h : img.mode = "RGBA" <;> simp [h]
  · obtain ⟨b, fs2, heq, -, hiff⟩ := remove_background_spec inp outp env fs
    exact ⟨b, by rw [heq], hiff⟩

/-- C9: the operation helpers are total at their call boundary: for every
input and every environment behaviour, `run_upscayl` and `remove_background`
return an ordinary boolean (`Except.ok`), never an uncaught exception. -/
theorem C9_helpers_total :
    (∀ (inp outp : String) (scale : Int) (env : UpscaylEnv) (fs : FS),
       ∃ (b : Bool) (fs2 : FS), run_upscayl inp outp scale env fs = (Except.ok b, fs2)) ∧
    (∀ (inp outp : String) (env : RembgEnv) (fs : FS),
       ∃ (b : Bool) (fs2 : FS), remove_background inp outp env fs = (Except.ok b, fs2)) := by
  constructor
  · intro inp outp scale env fs
    obtain ⟨b, fs2, heq, -⟩ := run_upscayl_spec inp outp scale env fs
    exact ⟨b, fs2, heq⟩
  · intro inp outp env fs
    obtain ⟨b, fs2, heq, -⟩ := remove_background_spec inp outp env fs
    exact ⟨b, fs2, heq⟩

/-- C5: a request to `/process` without an `image` multipart field, a
request to `/upscale` without a `file` multipart field, and a request to
either route whose upload has an empty filename, all yield status 400
immediately, with the filesystem untouched, whatever the environment (so no
operation is invoked). -/
theorem C5_missing_or_empty_upload_400 (req : Request) (env : HandlerEnv) (fs : FS) :
    (req.files "image" = none →
       process_image req env fs = (Except.ok (Response.json 400 "No image provided"), fs)) ∧
    (∀ f : UploadedFile, req.files "image" = some f → f.filename = "" →
       process_image req env fs = (Except.ok (Response.json 400 "No file selected"), fs)) ∧
    (req.files "file" = none →
       upscale_image req env fs = (Except.ok (Response.json 400 "No file provided"), fs)) ∧
    (∀ f : UploadedFile, req.files "file" = some f → f.filename = "" →
       upscale_image req env fs = (Except.ok (Response.json 400 "No file selected"), fs)) := by
  refine ⟨?_, ?_, ?_, ?_⟩
  · intro h
    unfold process_image
    rw [h]
    rfl
  · intro f hf hn
    unfold process_image
    rw [hf]
    simp only [if_pos hn]
    rfl
  · intro h
    unfold upscale_image
    rw [h]
    rfl
  · intro f hf hn
    unfold upscale_image
    rw [hf]
    simp only [if_pos hn]
    rfl

/-- C5 witness: concrete requests with a missing upload field or an empty
filename on each route. -/
theorem C5_missing_or_empty_upload_400_witness :
    process_image reqNoUpload envOk emptyFS =
      (Except.ok (Response.json 400 "No image provided"), emptyFS) ∧
    process_image reqEmptyNameProcess envOk emptyFS =
      (Except.ok (Response.json 400 "No file selected"), emptyFS) ∧
    upscale_image reqNoUpload envOk emptyFS =
      (Except.ok (Response.json 400 "No file provided"), emptyFS) ∧
    upscale_image reqEmptyNameUpscale envOk emptyFS =
      (Except.ok (Response.json 400 "No file selected"), emptyFS) := by
  refine ⟨?_, ?_, ?_, ?_⟩
  · exact (C5_missing_or_empty_upload_400 reqNoUpload envOk emptyFS).1 rfl
  · exact (C5_missing_or_empty_upload_400 reqEmptyNameProcess envOk emptyFS).2.1
      emptyNameFile rfl rfl
  · exact (C5_missing_or_empty_upload_400 reqNoUpload envOk emptyFS).2.2.1 rfl
  · exact (C5_missing_or_empty_upload_400 reqEmptyNameUpscale envOk emptyFS).2.2.2
      emptyNameFile rfl rfl

/-- C6 counterexample: the action check happens only after the upload has
been decoded and saved, so a request with `action=invalid` whose upload PIL
cannot decode yields 500 (generic internal error), not 400. -/
theorem C6_counterexample :
    (process_image reqBadAction envNoDecode emptyFS).1 =
      Except.ok (Response.json 500 "Internal server error") ∧
    (Response.json 500 "Internal server error").statusCode ≠ 400 := by
  exact ⟨rfl, by decide⟩

/-- C6 amended: for every request to `/process` whose upload decodes and
saves successfully and whose `action` form field is present but neither
`upscale` nor `remove_bg`, the response is 400 `Invalid action specified`
(for every operation environment, so neither operation is invoked). -/
theorem C6_amended_invalid_action_400 (req : Request) (env : HandlerEnv) (fs : FS)
    (a : String) (ha : req.form "action" = some a)
    (h1 : a ≠ "upscale") (h2 : a ≠ "remove_bg")
    (ho : env.openOk = true) (hsv : env.saveOk = true)
    (f : UploadedFile) (hf : req.files "image" = some f) (hn : f.filename ≠ "") :
    (process_image req env fs).1 = Except.ok (Response.json 400 "Invalid action specified") := by
  have hform : formGet req "action" "upscale" = a := by
    unfold formGet
    rw [ha]
    rfl
  rw [process_image_main req env f hf hn, tryCatchFinally_fst, hform,
    process_dispatch_invalid req env f a _ _ h1 h2]
  unfold PyM.tryCatch PyM.bind
  rw [saveUpload_ok env (inputPath env.uniqueId) fs ho hsv]
  rfl

/-- C6 amended witness: `action=invalid` with a decodable upload yields 400. -/
theorem C6_amended_invalid_action_400_witness :
    (process_image reqBadAction envOk emptyFS).1 =
      Except.ok (Response.json 400 "Invalid action specified") := by
  exact C6_amended_invalid_action_400 reqBadAction envOk emptyFS "invalid" rfl
    (by decide) (by decide) rfl rfl sampleFile rfl (by decide)

/-- C2 counterexample: a valid upload with `scale=abc` yields 500 (the
`ValueError` from `int()` is caught by the blanket handler), not the 400 the
claim states, on both routes. -/
theorem C2_counterexample :
    (process_image reqBadScaleProcess envOk emptyFS).1 =
      Except.ok (Response.json 500 "Internal server error") ∧
    (upscale_image reqBadScaleUpscale envOk emptyFS).1 =
      Except.ok (Response.json 500 "Internal server error") ∧
    (Response.json 500 "Internal server error").statusCode ≠ 400 := by
  exact ⟨rfl, rfl, by decide⟩

/-- C2 amended: a `scale` form field that is not a valid integer literal
makes `int()` raise, which the blanket `except` turns into a 500
`Internal server error` response (not a 400) on both routes. -/
theorem C2_amended_invalid_scale_500 (req : Request) (env : HandlerEnv) (fs : FS)
    (s : String) (e : PyErr)
    (hsf : req.form "scale" = some s) (hpi : pyInt s = Except.error e) :
    (∀ f : UploadedFile, req.files "image" = some f → f.filename ≠ "" →
       formGet req "action" "upscale" = "upscale" →
       env.openOk = true → env.saveOk = true →
       (process_image req env fs).1 = Except.ok (Response.json 500 "Internal server error")) ∧
    (∀ f : UploadedFile, req.files "file" = some f → f.filename ≠ "" →
       (upscale_image req env fs).1 = Except.ok (Response.json 500 "Internal server error")) := by
  have hg : getScale req.form = Except.error e := by
    unfold getScale
    rw [hsf]
    exact hpi
  constructor
  · intro f hf hn hact ho hsv
    rw [process_image_main req env f hf hn, tryCatchFinally_fst, hact,
      process_dispatch_upscale]
    unfold PyM.tryCatch PyM.bind PyM.liftExcept
    rw [saveUpload_ok env (inputPath env.uniqueId) fs ho hsv, hg]
    rfl
  · intro f hf hn
    rw [upscale_image_main req env f hf hn, tryCatchFinally_fst]
    unfold PyM.tryCatch PyM.bind PyM.liftExcept
    rw [hg]
    rfl

/-- C2 amended witness: `scale=abc` on both routes yields the generic 500. -/
theorem C2_amended_invalid_scale_500_witness :
    (process_image reqBothBadScale envOk emptyFS).1 =
      Except.ok (Response.json 500 "Internal server error") ∧
    (upscale_image reqBothBadScale envOk emptyFS).1 =
      Except.ok (Response.json 500 "Internal server error") := by
  obtain ⟨h1, h2⟩ := C2_amended_invalid_scale_500 reqBothBadScale envOk emptyFS "abc"
    (PyErr.exception "invalid literal for int with base 10: abc") rfl rfl
  exact ⟨h1 sampleFile rfl (by decide) rfl rfl rfl, h2 sampleFile rfl (by decide)⟩

/-- C3 counterexample: the legacy `/upscale` route does not require an
explicit action: a request with no `action` form field at all is served
successfully (the route always upscales), rather than being rejected. -/
theorem C3_counterexample :
    reqNoForm.form "action" = none ∧
    (upscale_image reqNoForm envOk emptyFS).1 =
      Except.ok (Response.file (outputPath "u") "image/png" "upscaled_photo.png") ∧
    (Response.file (outputPath "u") "image/png" "upscaled_photo.png").statusCode = 200 := by
  exact ⟨rfl, rfl, rfl⟩

/-- C3 amended: the two routes do differ, but not as claimed: `/process`
behaves, when `action` is absent, exactly as if `action=upscale` had been
sent, while `/upscale` never reads an `action` field at all (its result is
unchanged by any value of that field) and always upscales. -/
theorem C3_amended_action_defaulting (req : Request) (env : HandlerEnv) (fs : FS) :
    (req.form "action" = none →
       process_image req env fs =
         process_image
           { req with form := fun k => if k = "action" then some "upscale" else req.form k }
           env fs) ∧
    (∀ v : Option String,
       upscale_image
           { req with form := fun k => if k = "action" then v else req.form k } env fs =
         upscale_image req env fs) := by
  constructor
  · intro h
    have hext := process_image_ext req
      { req with form := fun k => if k = "action" then some "upscale" else req.form k }
      env rfl
      (by unfold formGet; rw [h]; rfl)
      (by simp)
    exact congrFun hext fs
  · intro v
    have hext := upscale_image_ext
      { req with form := fun k => if k = "action" then v else req.form k }
      req env rfl (by simp)
    exact congrFun hext fs

/-- C3 amended witness: on a concrete action-free request, `/process`
coincides with the explicit `action=upscale` request, and adding an action
field to `/upscale` changes nothing. -/
theorem C3_amended_action_defaulting_witness :
    process_image reqBothScale4 envOk emptyFS =
      process_image
        { reqBothScale4 with
          form := fun k => if k = "action" then some "upscale" else reqBothScale4.form k }
        envOk emptyFS ∧
    upscale_image
        { reqBothScale4 with
          form := fun k => if k = "action" then some "remove_bg" else reqBothScale4.form k }
        envOk emptyFS =
      upscale_image reqBothScale4 envOk emptyFS := by
  obtain ⟨h1, h2⟩ := C3_amended_action_defaulting reqBothScale4 envOk emptyFS
  exact ⟨h1 rfl, h2 (some "remove_bg")⟩

/-- C10: on the `remove_bg` dispatch path of `/process` the `scale` form
field is never read: two requests with the same `image` upload whose
`action` is `remove_bg` produce identical results (response and filesystem),
whatever their other form fields, in particular the value or presence of
`scale`. -/
theorem C10_remove_bg_ignores_scale (req1 req2 : Request) (env : HandlerEnv) (fs : FS)
    (hf : req1.files "image" = req2.files "image")
    (h1 : req1.form "action" = some "remove_bg")
    (h2 : req2.form "action" = some "remove_bg") :
    process_image req1 env fs = process_image req2 env fs := by
  have hg1 : formGet req1 "action" "upscale" = "remove_bg" := by
    unfold formGet; rw [h1]; rfl
  have hg2 : formGet req2 "action" "upscale" = "remove_bg" := by
    unfold formGet; rw [h2]; rfl
  have : process_image req1 env = process_image req2 env := by
    unfold process_image
    rw [← hf]
    cases hcase : req1.files "image" with
    | none => rfl
    | some file =>
      by_cases hname : file.filename = ""
      · simp only [if_pos hname]
      · simp only [if_neg hname]
        rw [hg1, hg2, process_dispatch_remove_bg, process_dispatch_remove_bg]
  exact congrFun this fs

/-- C10 witness: two concrete `remove_bg` requests differing only in their
`scale` field give identical results. -/
theorem C10_remove_bg_ignores_scale_witness :
    process_image reqRemoveBg3 envOk emptyFS = process_image reqRemoveBg7 envOk emptyFS := by
  exact C10_remove_bg_ignores_scale reqRemoveBg3 reqRemoveBg7 envOk emptyFS rfl rfl rfl

theorem run_upscayl_false_of_nonzero (inp outp : String) (scale : Int)
    (env : UpscaylEnv) (fs : FS)
    (hrun : ∀ inv : UpscaylInvocation, ∃ r : SubprocessResult,
        env.run inv = Except.ok r ∧ r.returncode ≠ 0) :
    ∃ fs2 : FS, run_upscayl inp outp scale env fs = (Except.ok false, fs2) := by
  obtain ⟨b, fs2, heq, -, -, hiff⟩ := run_upscayl_spec inp outp scale env fs
  cases b with
  | false => exact ⟨fs2, heq⟩
  | true =>
    exfalso
    rcases hiff.mp rfl with ⟨r, hr, hrc, -⟩
    obtain ⟨r2, hr2, hrc2⟩ := hrun _
    rw [hr] at hr2
    injection hr2 with h
    rw [← h] at hrc2
    exact hrc2 hrc

theorem remove_background_false_of_unavailable (inp outp : String)
    (env : RembgEnv) (fs : FS) (hav : env.available = false) :
    ∃ fs2 : FS, remove_background inp outp env fs = (Except.ok false, fs2) := by
  obtain ⟨b, fs2, heq, -, hiff⟩ := remove_background_spec inp outp env fs
  cases b with
  | false => exact ⟨fs2, heq⟩
  | true =>
    exfalso
    rcases hiff.mp rfl with ⟨hav2, -⟩
    rw [hav] at hav2
    cases hav2

/-- C4: whenever the selected operation fails — in particular when every
invocation of the external binary exits nonzero, and when the
background-removal dependency is unavailable — the endpoint answers 500 with
an error message naming the failed action (a JSON response, not image
bytes), and the output temp file does not exist afterwards. -/
theorem C4_operation_failure_500 (req : Request) (env : HandlerEnv) (fs : FS)
    (hrun : ∀ inv : UpscaylInvocation, ∃ r : SubprocessResult,
        env.upscayl.run inv = Except.ok r ∧ r.returncode ≠ 0)
    (hrem : env.rembg.available = false)
    (ho : env.openOk = true) (hsv : env.saveOk = true) :
    (∀ f : UploadedFile, req.files "image" = some f → f.filename ≠ "" →
       ((formGet req "action" "upscale" = "upscale" →
           (∃ n : Int, getScale req.form = Except.ok n) →
           (process_image req env fs).1 =
             Except.ok (Response.json 500 "Failed to upscale image")) ∧
        (formGet req "action" "upscale" = "remove_bg" →
           (process_image req env fs).1 =
             Except.ok (Response.json 500 "Failed to remove bg image")) ∧
        (process_image req env fs).2 (outputPath env.uniqueId) = false)) ∧
    (∀ f : UploadedFile, req.files "file" = some f → f.filename ≠ "" →
       (∃ n : Int, getScale req.form = Except.ok n) →
       ((upscale_image req env fs).1 =
           Except.ok (Response.json 500 "Failed to upscale image") ∧
        (upscale_image req env fs).2 (outputPath env.uniqueId) = false)) := by
  constructor
  · intro f hf hn
    refine ⟨?_, ?_, ?_⟩
    · rintro hact ⟨n, hgs⟩
      obtain ⟨fs2, hrun_eq⟩ := run_upscayl_false_of_nonzero (inputPath env.uniqueId)
        (outputPath env.uniqueId) n env.upscayl
        (fun q => if q = inputPath env.uniqueId then true else fs q) hrun
      obtain ⟨fs3, hfin⟩ := finishAndSend_fail_pair f env "upscale"
        (inputPath env.uniqueId) (outputPath env.uniqueId) fs2
      rw [process_image_main req env f hf hn, tryCatchFinally_fst, hact,
        process_dispatch_upscale]
      simp only [PyM.tryCatch, PyM.bind, PyM.liftExcept,
        saveUpload_ok env (inputPath env.uniqueId) fs ho hsv, hgs, hrun_eq, hfin]
      rfl
    · intro hact
      obtain ⟨fs2, hrem_eq⟩ := remove_background_false_of_unavailable
        (inputPath env.uniqueId) (outputPath env.uniqueId) env.rembg
        (fun q => if q = inputPath env.uniqueId then true else fs q) hrem
      obtain ⟨fs3, hfin⟩ := finishAndSend_fail_pair f env "remove_bg"
        (inputPath env.uniqueId) (outputPath env.uniqueId) fs2
      rw [process_image_main req env f hf hn, tryCatchFinally_fst, hact,
        process_dispatch_remove_bg]
      simp only [PyM.tryCatch, PyM.bind,
        saveUpload_ok env (inputPath env.uniqueId) fs ho hsv, hrem_eq, hfin]
      rfl
    · rw [process_image_main req env f hf hn, tryCatchFinally_snd]
      exact cleanupOutput_self _ _
  · rintro f hf hn ⟨n, hgs⟩
    constructor
    · obtain ⟨fs2, hrun_eq⟩ := run_upscayl_false_of_nonzero (inputPath env.uniqueId)
        (outputPath env.uniqueId) n env.upscayl
        (fun q => if q = inputPath env.uniqueId then true else fs q) hrun
      obtain ⟨fs3, hfin⟩ := finishAndSend_fail_pair f env "upscale"
        (inputPath env.uniqueId) (outputPath env.uniqueId) fs2
      rw [upscale_image_main req env f hf hn, tryCatchFinally_fst]
      simp only [PyM.tryCatch, PyM.bind, PyM.liftExcept, hgs,
        saveUpload_ok env (inputPath env.uniqueId) fs ho hsv, hrun_eq, hfin]
      rfl
    · rw [upscale_image_main req env f hf hn, tryCatchFinally_snd]
      exact cleanupOutput_self _ _

/-- C4 witness: with the binary exiting 1 and rembg unavailable, a concrete
request gets 500 naming the action on both routes, and on the remove_bg
dispatch, and no output file remains. -/
theorem C4_operation_failure_500_witness :
    (process_image reqBothScale4 envBad emptyFS).1 =
      Except.ok (Response.json 500 "Failed to upscale image") ∧
    (process_image reqBothScale4 envBad emptyFS).2 (outputPath "u") = false ∧
    (upscale_image reqBothScale4 envBad emptyFS).1 =
      Except.ok (Response.json 500 "Failed to upscale image") ∧
    (process_image reqRemoveBg3 envBad emptyFS).1 =
      Except.ok (Response.json 500 "Failed to remove bg image") := by
  have hrun : ∀ inv : UpscaylInvocation, ∃ r : SubprocessResult,
      envBad.upscayl.run inv = Except.ok r ∧ r.returncode ≠ 0 :=
    fun _ => ⟨{ returncode := 1, stdout := "", stderr := "failed" }, rfl, by decide⟩
  obtain ⟨h1, h2⟩ := C4_operation_failure_500 reqBothScale4 envBad emptyFS hrun rfl rfl rfl
  obtain ⟨h3, -⟩ := C4_operation_failure_500 reqRemoveBg3 envBad emptyFS hrun rfl rfl rfl
  obtain ⟨ha, -, hc⟩ := h1 sampleFile rfl (by decide)
  obtain ⟨-, hb, -⟩ := h3 sampleFile rfl (by decide)
  obtain ⟨hd, -⟩ := h2 sampleFile rfl (by decide) ⟨4, rfl⟩
  exact ⟨ha rfl ⟨4, rfl⟩, hc, hd, hb rfl⟩

theorem upscale_body_snd_inp (req : Request) (env : HandlerEnv) (file : UploadedFile)
    (fs : FS) (hinp : fs (inputPath env.uniqueId) = false) :
    ((PyM.bind (PyM.liftExcept (getScale req.form)) (fun scale =>
        PyM.bind (saveUpload env (inputPath env.uniqueId)) (fun _ =>
          PyM.bind (run_upscayl (inputPath env.uniqueId) (outputPath env.uniqueId)
              scale env.upscayl) (fun success =>
            finishAndSend file env "upscale" (inputPath env.uniqueId)
              (outputPath env.uniqueId) success)))) fs).2 (inputPath env.uniqueId) = false := by
  rcases hg : getScale req.form with e | n
  · simp only [PyM.bind, PyM.liftExcept, hg]
    exact hinp
  · simp only [PyM.bind, PyM.liftExcept, hg]
    by_cases ho : env.openOk = true
    · by_cases hs : env.saveOk = true
      · obtain ⟨b, fs2, heq, -, -, -⟩ := run_upscayl_spec (inputPath env.uniqueId)
          (outputPath env.uniqueId) n env.upscayl
          (fun q => if q = inputPath env.uniqueId then true else fs q)
        simp only [saveUpload_ok env (inputPath env.uniqueId) fs ho hs, heq]
        exact finishAndSend_snd_self file env "upscale" (inputPath env.uniqueId)
          (outputPath env.uniqueId) b fs2
      · obtain ⟨e2, heq⟩ := saveUpload_bad env (inputPath env.uniqueId) fs
          (Or.inr (by simpa using hs))
        simp only [heq]
        exact hinp
    · obtain ⟨e2, heq⟩ := saveUpload_bad env (inputPath env.uniqueId) fs
        (Or.inl (by simpa using ho))
      simp only [heq]
      exact hinp

theorem process_body_snd_inp (req : Request) (env : HandlerEnv) (file : UploadedFile)
    (fs : FS) (hinp : fs (inputPath env.uniqueId) = false)
    (hact : formGet req "action" "upscale" = "upscale" ∨
            formGet req "action" "upscale" = "remove_bg")
    (hscale : formGet req "action" "upscale" = "upscale" →
        ∃ n : Int, getScale req.form = Except.ok n) :
    ((PyM.bind (saveUpload env (inputPath env.uniqueId)) (fun _ =>
        process_dispatch req env file (formGet req "action" "upscale")
          (inputPath env.uniqueId) (outputPath env.uniqueId))) fs).2
      (inputPath env.uniqueId) = false := by
  by_cases ho : env.openOk = true
  · by_cases hs : env.saveOk = true
    · rcases hact with hact | hact
      · obtain ⟨n, hgs⟩ := hscale hact
        obtain ⟨b, fs2, heq, -, -, -⟩ := run_upscayl_spec (inputPath env.uniqueId)
          (outputPath env.uniqueId) n env.upscayl
          (fun q => if q = inputPath env.uniqueId then true else fs q)
        rw [hact, process_dispatch_upscale]
        simp only [PyM.bind, PyM.liftExcept,
          saveUpload_ok env (inputPath env.uniqueId) fs ho hs, hgs, heq]
        exact finishAndSend_snd_self file env "upscale" (inputPath env.uniqueId)
          (outputPath env.uniqueId) b fs2
      · obtain ⟨b, fs2, heq, -, -⟩ := remove_background_spec (inputPath env.uniqueId)
          (outputPath env.uniqueId) env.rembg
          (fun q => if q = inputPath env.uniqueId then true else fs q)
        rw [hact, process_dispatch_remove_bg]
        simp only [PyM.bind,
          saveUpload_ok env (inputPath env.uniqueId) fs ho hs, heq]
        exact finishAndSend_snd_self file env "remove_bg" (inputPath env.uniqueId)
          (outputPath env.uniqueId) b fs2
    · obtain ⟨e2, heq⟩ := saveUpload_bad env (inputPath env.uniqueId) fs
        (Or.inr (by simpa using hs))
      simp only [PyM.bind, heq]
      exact hinp
  · obtain ⟨e2, heq⟩ := saveUpload_bad env (inputPath env.uniqueId) fs
      (Or.inl (by simpa using ho))
    simp only [PyM.bind, heq]
    exact hinp

/-- C1 counterexample: against the claim that no temp file ever remains,
the invalid-action 400 path of `/process` returns before the input-file
cleanup line (which is not in the `finally` block), leaving the input temp
file on disk after the handler completes. -/
theorem C1_counterexample :
    (process_image reqBadAction envOk emptyFS).1 =
      Except.ok (Response.json 400 "Invalid action specified") ∧
    (process_image reqBadAction envOk emptyFS).2 (inputPath "u") = true := by
  exact ⟨rfl, rfl⟩

/-- C1 amended: the output temp file is always removed (its cleanup is in
the guaranteed-run `finally` block), and the input temp file is removed on
`/upscale` always, but on `/process` only when the dispatch completes: with
a valid action (`upscale`, possibly by default, or `remove_bg`) and, on the
upscale path, a `scale` field that parses; an invalid action or an
unparsable scale leaves the input file behind. -/
theorem C1_amended_cleanup (req : Request) (env : HandlerEnv) (fs : FS) :
    (fs (outputPath env.uniqueId) = false →
       (process_image req env fs).2 (outputPath env.uniqueId) = false ∧
       (upscale_image req env fs).2 (outputPath env.uniqueId) = false) ∧
    (fs (inputPath env.uniqueId) = false →
       (upscale_image req env fs).2 (inputPath env.uniqueId) = false) ∧
    (fs (inputPath env.uniqueId) = false →
       (formGet req "action" "upscale" = "upscale" ∨
        formGet req "action" "upscale" = "remove_bg") →
       (formGet req "action" "upscale" = "upscale" →
          ∃ n : Int, getScale req.form = Except.ok n) →
       (process_image req env fs).2 (inputPath env.uniqueId) = false) := by
  refine ⟨?_, ?_, ?_⟩
  · intro houtp
    constructor
    · rcases hcase : req.files "image" with _ | f
      · unfold process_image
        rw [hcase]
        exact houtp
      · by_cases hname : f.filename = ""
        · unfold process_image
          rw [hcase]
          simp only [if_pos hname]
          exact houtp
        · rw [process_image_main req env f hcase hname, tryCatchFinally_snd]
          exact cleanupOutput_self _ _
    · rcases hcase : req.files "file" with _ | f
      · unfold upscale_image
        rw [hcase]
        exact houtp
      · by_cases hname : f.filename = ""
        · unfold upscale_image
          rw [hcase]
          simp only [if_pos hname]
          exact houtp
        · rw [upscale_image_main req env f hcase hname, tryCatchFinally_snd]
          exact cleanupOutput_self _ _
  · intro hinp
    rcases hcase : req.files "file" with _ | f
    · unfold upscale_image
      rw [hcase]
      exact hinp
    · by_cases hname : f.filename = ""
      · unfold upscale_image
        rw [hcase]
        simp only [if_pos hname]
        exact hinp
      · rw [upscale_image_main req env f hcase hname, tryCatchFinally_snd]
        by_cases hio : inputPath env.uniqueId = outputPath env.uniqueId
        · rw [hio]
          exact cleanupOutput_self _ _
        · rw [cleanupOutput_other _ _ _ hio, tryCatch_pure_snd]
          exact upscale_body_snd_inp req env f _ hinp
  · intro hinp hact hscale
    rcases hcase : req.files "image" with _ | f
    · unfold process_image
      rw [hcase]
      exact hinp
    · by_cases hname : f.filename = ""
      · unfold process_image
        rw [hcase]
        simp only [if_pos hname]
        exact hinp
      · rw [process_image_main req env f hcase hname, tryCatchFinally_snd]
        by_cases hio : inputPath env.uniqueId = outputPath env.uniqueId
        · rw [hio]
          exact cleanupOutput_self _ _
        · rw [cleanupOutput_other _ _ _ hio, tryCatch_pure_snd]
          exact process_body_snd_inp req env f _ hinp hact hscale

/-- C1 amended witness: on a concrete request both routes leave neither
temp file behind. -/
theorem C1_amended_cleanup_witness :
    (process_image reqBothScale4 envOk emptyFS).2 (outputPath "u") = false ∧
    (upscale_image reqBothScale4 envOk emptyFS).2 (outputPath "u") = false ∧
    (upscale_image reqBothScale4 envOk emptyFS).2 (inputPath "u") = false ∧
    (process_image reqBothScale4 envOk emptyFS).2 (inputPath "u") = false := by
  obtain ⟨h1, h2, h3⟩ := C1_amended_cleanup reqBothScale4 envOk emptyFS
  exact ⟨(h1 rfl).1, (h1 rfl).2, h2 rfl, h3 rfl (Or.inl rfl) (fun _ => ⟨4, rfl⟩)⟩

end UpscaylService
